import Mathlib

/-!
Shallow embedding of the dm binlog relay (`relay.go`): the data model and the
operations needed to settle the specification's claims about binlog header
integrity, position-based restart, the event loop (fake rotates, duplicate
FormatDescription suppression, the one-shot resync flag), switchover/resync,
`Process` result delivery and `Close`.

Machine integers are modelled as `Nat` (the relay never overflows the 32-bit
offsets on the paths the claims talk about), byte sequences as `List Nat`,
fallible operations as `Except`, and the file system as an association list
from file name to content.  The meta store (`pkg/streamer` local meta) and the
go-mysql library surface (`BinLogFileHeader`, `Position.Compare`,
`ParseSingleEvent`) are not part of the single source file; such definitions
carry a doc comment saying what they model.
-/

namespace DMRelay

/-- Size of the binlog magic header, `binlogHeaderSize = 4` in the source. -/
def binlogHeaderSize : Nat := 4

/-- Models go-mysql `replication.BinLogFileHeader`: the 4 magic bytes FE 62 69 6E. -/
def BinLogFileHeader : List Nat := [0xfe, 0x62, 0x69, 0x6e]

/-- Separator joining a MariaDB `gtid_domain_id` and `server_id` into a "UUID". -/
def domainServerIDSeparator : String := "-"

/-- Upstream flavor, `mysql.MySQLFlavor` or `mysql.MariaDBFlavor`. -/
inductive Flavor where
  | mysql
  | mariadb
deriving DecidableEq

/-- The relay configuration fields the claims depend on (`Config` in the source). -/
structure Config where
  enableGTID : Bool
  autoFixGTID : Bool
  flavor : Flavor
deriving DecidableEq

/-- Models go-mysql `mysql.Position`: binlog file name plus offset. -/
structure Position where
  name : String
  pos : Nat
deriving DecidableEq

/-- Lexicographic comparison of character lists by code point, modelling Go's
byte-wise string ordering (written out so it evaluates, unlike the
iterator-based decision procedure of the library's string order). -/
def charListLt : List Char → List Char → Bool
  | [], [] => false
  | [], _ :: _ => true
  | _ :: _, [] => false
  | a :: as, b :: bs =>
    if a.toNat < b.toNat then true
    else if b.toNat < a.toNat then false
    else charListLt as bs

/-- Go string `<` on the underlying characters. -/
def strLt (a b : String) : Bool := charListLt a.data b.data

/-- Models go-mysql `Position.Compare`: 1 when the receiver is greater, ordered by
name lexicographically and then by offset. -/
def Position.Compare (p o : Position) : Int :=
  if strLt o.name p.name then 1
  else if strLt p.name o.name then -1
  else if o.pos < p.pos then 1
  else if p.pos < o.pos then -1
  else 0

/-- The error values the embedded relay operations can surface. -/
inductive RelayError where
  | syncClosed
  | needSyncAgain
  | checksumMismatch
  | purged
  | otherError
  | resyncFailed
  | notValid
  | parseError
  | writeFailed
  | binlogPosGreaterThanFileSize (name : String) (size : Nat) (pos : Nat)
  | switchMasterNotGTID
  | getUUIDFailed
  | getMasterStatusFailed
deriving DecidableEq

/-- The prometheus counters the claims mention. -/
structure Counters where
  binlogReadError : Nat
  relayLogDataCorruption : Nat
  relayLogWriteError : Nat
  relayExitWithError : Nat
deriving DecidableEq

/-- Increment of `binlogReadErrorCounter`. -/
def Counters.incReadError (c : Counters) : Counters :=
  { c with binlogReadError := c.binlogReadError + 1 }

/-- Increment of `relayLogDataCorruptionCounter`. -/
def Counters.incCorruption (c : Counters) : Counters :=
  { c with relayLogDataCorruption := c.relayLogDataCorruption + 1 }

/-- Increment of `relayLogWriteErrorCounter`. -/
def Counters.incWriteError (c : Counters) : Counters :=
  { c with relayLogWriteError := c.relayLogWriteError + 1 }

/-- Modelled from the spec: the durable checkpoint record of the meta store
(`pkg/streamer` local meta, not part of the source file): current sub-directory
uuid, the ordered uuid list, position, optional GTID set (its text form), and
the dirty flag. -/
structure Meta where
  uuid : String
  uuids : List String
  pos : Position
  gset : Option String
  dirty : Bool
deriving DecidableEq

/-- Modelled from the spec: `meta.Save(position, gtid_or_nil)` updates the
in-memory cursors and marks dirty; a nil GTID argument leaves the GTID field
unchanged. -/
def Meta.save (m : Meta) (pos : Position) (gset : Option String) : Meta :=
  { m with
    pos := pos
    gset := match gset with
      | none => m.gset
      | some g => some g
    dirty := true }

/-- Modelled from the spec: `meta.AddDir(uuid, pos_or_nil, gtid_or_nil)` appends a
new sub-directory: appends `uuid` to `uuids`, makes it current, resets the
position to the provided value or `{name:"", offset:0}`, sets the GTID set to
the provided value or leaves it unchanged, and atomically persists. -/
def Meta.addDir (m : Meta) (uuid : String) (posArg : Option Position) (gsetArg : Option String) : Meta :=
  { uuid := uuid
    uuids := m.uuids ++ [uuid]
    pos := match posArg with
      | none => { name := "", pos := 0 }
      | some p => p
    gset := match gsetArg with
      | none => m.gset
      | some g => some g
    dirty := false }

/-- Modelled from the spec: `meta.Load()` re-reads the durable state.  `AddDir`
persists atomically, so immediately after it the durable record coincides with
the in-memory one and reloading is the identity. -/
def Meta.load (m : Meta) : Meta := m

/-- Modelled from the spec: `meta.Flush()` writes the record to stable storage
and clears the dirty flag. -/
def Meta.flush (m : Meta) : Meta := { m with dirty := false }

/-- The upstream environment consulted during switchover/resync: results of the
SQL queries (`utils.GetServerUUID`, `utils.GetMariaDBGtidDomainID`,
`utils.GetServerID`, `utils.GetMasterStatus`) and the GTID-set `Replace`
operation of the gtid package (repository code outside the source file,
kept abstract as a function `old → new → uuids → merged`). -/
structure Upstream where
  getServerUUID : Except Unit String
  getMariaDBGtidDomainID : Except Unit Nat
  getServerID : Except Unit Nat
  getMasterStatus : Except Unit (Position × String)
  replaceGTID : String → String → List String → String

/-- `getServerUUID`: for MariaDB the "UUID" is
`<gtid_domain_id><domainServerIDSeparator><server_id>`, otherwise the
`server_uuid` system variable. -/
def getServerUUID (cfg : Config) (env : Upstream) : Except RelayError String :=
  if cfg.flavor = Flavor.mariadb then
    match env.getMariaDBGtidDomainID with
    | Except.error _ => Except.error RelayError.getUUIDFailed
    | Except.ok domainID =>
      match env.getServerID with
      | Except.error _ => Except.error RelayError.getUUIDFailed
      | Except.ok serverID =>
        Except.ok (toString domainID ++ domainServerIDSeparator ++ toString serverID)
  else
    match env.getServerUUID with
    | Except.error _ => Except.error RelayError.getUUIDFailed
    | Except.ok uuid => Except.ok uuid

/-- `reSetupMeta`: fetch the upstream server UUID, `meta.AddDir(uuid, nil, nil)`,
then `meta.Load()`. -/
def reSetupMeta (cfg : Config) (env : Upstream) (meta : Meta) : Except RelayError Meta :=
  match getServerUUID cfg env with
  | Except.error e => Except.error e
  | Except.ok uuid => Except.ok ((meta.addDir uuid none none).load)

/-- `SwitchMaster`: only permitted with GTID enabled, in which case it performs
`reSetupMeta`. -/
def SwitchMaster (cfg : Config) (env : Upstream) (meta : Meta) : Except RelayError Meta :=
  if !cfg.enableGTID then Except.error RelayError.switchMasterNotGTID
  else reSetupMeta cfg env meta

/-- `retrySyncGTIDs`: a no-op unless the flavor is MySQL; otherwise query the new
master status, get the master UUID, `Replace` the old GTID set for that UUID
with the master's fresh intervals, and `AddDir` the new sub-directory with the
merged set. -/
def retrySyncGTIDs (cfg : Config) (env : Upstream) (meta : Meta) : Except RelayError Meta :=
  if cfg.flavor ≠ Flavor.mysql then Except.ok meta
  else
    match env.getMasterStatus with
    | Except.error _ => Except.error RelayError.getMasterStatusFailed
    | Except.ok statusPair =>
      match getServerUUID cfg env with
      | Except.error e => Except.error e
      | Except.ok masterUUID =>
        Except.ok (meta.addDir masterUUID none
          (some (env.replaceGTID (match meta.gset with | none => "" | some g => g)
            statusPair.2 [masterUUID])))

/-- `startSyncByPos`: `fileSize` models `os.Stat` on `<dir>/<name>`
(`none` = the file does not exist).  With an empty recorded name the position is
handed to the upstream untouched; with the file absent the offset is reset to 4;
with the file larger than the offset the relay resumes from the file size and
saves that position in meta; with the file smaller it fails with
`ErrBinlogPosGreaterThanFileSize` annotated with name, size and position. -/
def startSyncByPos (meta : Meta) (fileSize : Option Nat) : Except RelayError (Position × Meta) :=
  if meta.pos.name = "" then Except.ok (meta.pos, meta)
  else
    match fileSize with
    | none => Except.ok ({ meta.pos with pos := 4 }, meta)
    | some size =>
      if meta.pos.pos < size then
        Except.ok ({ meta.pos with pos := size },
          meta.save { meta.pos with pos := size } none)
      else if size < meta.pos.pos then
        Except.error (RelayError.binlogPosGreaterThanFileSize meta.pos.name size meta.pos.pos)
      else Except.ok (meta.pos, meta)

/-- Lookup in the association-list file system. -/
def fsLookup (fs : List (String × List Nat)) (name : String) : Option (List Nat) :=
  match fs with
  | [] => none
  | p :: rest => if p.1 = name then some p.2 else fsLookup rest name

/-- Insert/overwrite in the association-list file system. -/
def fsInsert (fs : List (String × List Nat)) (name : String) (content : List Nat) :
    List (String × List Nat) :=
  match fs with
  | [] => [(name, content)]
  | p :: rest => if p.1 = name then (name, content) :: rest else p :: fsInsert rest name content

/-- Models `fd.Read(b)` on a 4-byte zeroed buffer at offset 0: `none` is `io.EOF`
(empty file); otherwise the buffer holds the first bytes of the file padded
with zeros to 4 bytes. -/
def readFirst4 (content : List Nat) : Option (List Nat) :=
  if content.length = 0 then none
  else some (content.take binlogHeaderSize ++
    List.replicate (binlogHeaderSize - content.length) 0)

/-- `writeBinlogHeaderIfNotExists` at the level of file contents: read the first
4 bytes; on EOF or mismatch with the magic, seek to the start and write the
magic (overwriting the first 4 bytes, keeping the remainder). -/
def writeBinlogHeaderIfNotExists (content : List Nat) : List Nat :=
  match readFirst4 content with
  | none => BinLogFileHeader ++ content.drop binlogHeaderSize
  | some b =>
    if b = BinLogFileHeader then content
    else BinLogFileHeader ++ content.drop binlogHeaderSize

/-- Event size little-endian field at offsets 9..12 of a 19-byte binlog event
header (the go-mysql event header layout). -/
def eventSizeOf (bs : List Nat) : Nat :=
  bs.getD 9 0 + bs.getD 10 0 * 256 + bs.getD 11 0 * 65536 + bs.getD 12 0 * 16777216

/-- Models go-mysql `BinlogParser.ParseSingleEvent` reading one event from the
given bytes: EOF before any byte yields `ok true`; a truncated header, an
event size below the header size, or truncated event data yield an error; a
complete event yields `ok false`. -/
def parseSingleEvent (rest : List Nat) : Except Unit Bool :=
  if rest.length = 0 then Except.ok true
  else if rest.length < 19 then Except.error ()
  else if eventSizeOf rest < 19 then Except.error ()
  else if rest.length < eventSizeOf rest then Except.error ()
  else Except.ok false

/-- `checkFormatDescriptionEventExists` on the bytes following the magic header:
parse a single event; a non-EOF parse means the file already holds its
FormatDescription event. -/
def checkFormatDescriptionEventExists (contentAfterHeader : List Nat) : Except Unit Bool :=
  match parseSingleEvent contentAfterHeader with
  | Except.error e => Except.error e
  | Except.ok eof => Except.ok (!eof)

/-- The mutable relay state touched by the file writer: the file system under the
current sub-directory, the currently open file (by name), the meta record and
the counters. -/
structure RelayState where
  fs : List (String × List Nat)
  fd : Option String
  meta : Meta
  counters : Counters
deriving DecidableEq

/-- Content of the file `filename` right after `handleFormatDescriptionEvent`
opened (creating it if absent) and ensured the magic header. -/
def openedContent (st : RelayState) (filename : String) : List Nat :=
  writeBinlogHeaderIfNotExists (match fsLookup st.fs filename with
    | none => []
    | some c => c)

/-- `handleFormatDescriptionEvent`: close any previous file; an empty filename is
fatal (`errors.NotValidf`) and bumps the binlog-read-error counter; otherwise
it opens `<dir>/<filename>` creating it, writes the magic header if missing,
probes for an existing FormatDescription event (a probe failure bumps the
data-corruption counter), and seeks to the end. -/
def handleFormatDescriptionEvent (st : RelayState) (filename : String) :
    Except (RelayError × RelayState) (Bool × RelayState) :=
  if filename.length = 0 then
    Except.error (RelayError.notValid,
      { st with fd := none, counters := st.counters.incReadError })
  else
    match checkFormatDescriptionEventExists ((openedContent st filename).drop binlogHeaderSize) with
    | Except.error _ =>
      Except.error (RelayError.parseError,
        { st with
          fs := fsInsert st.fs filename (openedContent st filename)
          fd := some filename
          counters := st.counters.incCorruption })
    | Except.ok ex =>
      Except.ok (ex,
        { st with
          fs := fsInsert st.fs filename (openedContent st filename)
          fd := some filename })

/-- The 19-byte binlog event header fields used by the loop. -/
structure EventHeader where
  timestamp : Nat
  logPos : Nat
  eventSize : Nat
deriving DecidableEq

/-- The tagged event kinds the loop dispatches on (`e.Event`'s dynamic type). -/
inductive EventBody where
  | formatDescription
  | rotate (nextLogName : String) (position : Nat)
  | query (gset : Option String)
  | xid (gset : Option String)
  | other
deriving DecidableEq

/-- A received binlog event: header, body and the raw bytes to append. -/
structure BinlogEvent where
  header : EventHeader
  event : EventBody
  rawData : List Nat
deriving DecidableEq

/-- The loop-local cursors `lastPos` and `lastGTID`. -/
structure LoopVars where
  lastPos : Position
  lastGTID : Option String
deriving DecidableEq

/-- The rotate-branch cursor update: adopt `currentPos` exactly when it compares
greater than `lastPos`. -/
def rotateAdopt (vars : LoopVars) (currentPos : Position) : LoopVars :=
  if currentPos.Compare vars.lastPos = 1 then { vars with lastPos := currentPos } else vars

/-- Outcome of one loop iteration on a successfully received event: either the
loop continues (recording whether the raw bytes were appended and whether meta
was saved) or it returns an error. -/
inductive IterOut where
  | cont (vars : LoopVars) (st : RelayState) (appended : Bool) (metaSaved : Bool)
  | exit (st : RelayState) (err : Option RelayError)
deriving DecidableEq

/-- The non-GTID (raw mode) cursor update applied to every event before the
write: `lastPos.Pos = e.Header.LogPos`. -/
def posUpdate (cfg : Config) (vars : LoopVars) (e : BinlogEvent) : LoopVars :=
  if !cfg.enableGTID then { vars with lastPos := { vars.lastPos with pos := e.header.logPos } }
  else vars

/-- The shared tail of an iteration: the raw-mode position update, the
`fd.Write(e.RawData)` append (an unopened file surfaces a write error and bumps
the write-error counter), and `meta.Save(lastPos, lastGTID)`. -/
def appendAndSave (cfg : Config) (vars : LoopVars) (st : RelayState) (e : BinlogEvent) : IterOut :=
  match st.fd with
  | none =>
    IterOut.exit { st with counters := st.counters.incWriteError } (some RelayError.writeFailed)
  | some name =>
    IterOut.cont (posUpdate cfg vars e)
      { st with
        fs := fsInsert st.fs name ((match fsLookup st.fs name with
          | none => []
          | some c => c) ++ e.rawData)
        meta := st.meta.save (posUpdate cfg vars e).lastPos (posUpdate cfg vars e).lastGTID }
      true true

/-- One iteration of the event classification switch of `process` on a received
event, followed by the append-and-save tail unless the iteration skips. -/
def processEvent (cfg : Config) (vars : LoopVars) (st : RelayState) (e : BinlogEvent) : IterOut :=
  match e.event with
  | EventBody.formatDescription =>
    match handleFormatDescriptionEvent st vars.lastPos.name with
    | Except.error pair => IterOut.exit pair.2 (some pair.1)
    | Except.ok pair =>
      if pair.1 then IterOut.cont vars pair.2 false false
      else appendAndSave cfg vars pair.2 e
  | EventBody.rotate nextLogName position =>
    if e.header.timestamp = 0 ∨ e.header.logPos = 0 then
      IterOut.cont (rotateAdopt vars { name := nextLogName, pos := position }) st false false
    else
      appendAndSave cfg (rotateAdopt vars { name := nextLogName, pos := position }) st e
  | EventBody.query gset =>
    appendAndSave cfg
      { lastPos := { vars.lastPos with pos := e.header.logPos }, lastGTID := gset } st e
  | EventBody.xid gset =>
    appendAndSave cfg
      { lastPos := { vars.lastPos with pos := e.header.logPos }, lastGTID := gset } st e
  | EventBody.other => appendAndSave cfg vars st e

/-- The possible results of one `streamer.GetEvent` call.  `purged` carries
whether reopening the streamer (`reopenStreamer`) would succeed, since that
involves the upstream connection. -/
inductive GetEventResult where
  | canceled
  | deadlineExceeded
  | checksumMismatch
  | syncClosed
  | needSyncAgain
  | purged (reopenOk : Bool)
  | otherError
  | ok (e : BinlogEvent)
deriving DecidableEq

/-- Observable actions of a run, used to state the one-shot resync property. -/
inductive Action where
  | resync
  | eventOk
deriving DecidableEq

/-- Result of running the event loop on a finite list of `GetEvent` outcomes:
either the inputs were exhausted with the loop still live, or the loop
returned (`err = none` models the clean return on cancellation). -/
inductive LoopOut where
  | finished (vars : LoopVars) (st : RelayState) (tryReSync : Bool)
  | exited (st : RelayState) (err : Option RelayError)
deriving DecidableEq

/-- The `for` loop of `process`, driven by a finite list of `GetEvent` results.
`tryReSync` is the one-shot resync flag: consulted on a purged-logs error,
cleared after a resync, and set back after every successful `GetEvent`. -/
def runLoop (cfg : Config) (env : Upstream) :
    LoopVars → RelayState → Bool → List GetEventResult → List Action × LoopOut
  | vars, st, tryReSync, [] => ([], LoopOut.finished vars st tryReSync)
  | vars, st, tryReSync, input :: rest =>
    match input with
    | GetEventResult.canceled => ([], LoopOut.exited st none)
    | GetEventResult.deadlineExceeded => runLoop cfg env vars st tryReSync rest
    | GetEventResult.checksumMismatch =>
      ([], LoopOut.exited { st with counters := st.counters.incCorruption }
        (some RelayError.checksumMismatch))
    | GetEventResult.syncClosed => ([], LoopOut.exited st (some RelayError.syncClosed))
    | GetEventResult.needSyncAgain => ([], LoopOut.exited st (some RelayError.needSyncAgain))
    | GetEventResult.purged reopenOk =>
      if tryReSync && cfg.enableGTID && cfg.autoFixGTID then
        match retrySyncGTIDs cfg env st.meta with
        | Except.error _ => ([], LoopOut.exited st (some RelayError.resyncFailed))
        | Except.ok meta2 =>
          if reopenOk then
            (Action.resync :: (runLoop cfg env vars { st with meta := meta2 } false rest).1,
             (runLoop cfg env vars { st with meta := meta2 } false rest).2)
          else ([], LoopOut.exited { st with meta := meta2 } (some RelayError.resyncFailed))
      else
        ([], LoopOut.exited { st with counters := st.counters.incReadError }
          (some RelayError.purged))
    | GetEventResult.otherError =>
      ([], LoopOut.exited { st with counters := st.counters.incReadError }
        (some RelayError.otherError))
    | GetEventResult.ok e =>
      match processEvent cfg vars st e with
      | IterOut.cont vars2 st2 _ _ =>
        (Action.eventOk :: (runLoop cfg env vars2 st2 true rest).1,
         (runLoop cfg env vars2 st2 true rest).2)
      | IterOut.exit st2 err => ([Action.eventOk], LoopOut.exited st2 err)

/-- Checker for the one-shot property: scanning the action trace with the
current "resync allowed" flag, a resync action is legal only while allowed and
clears the flag; a successful event restores it. -/
def resyncAlternates : Bool → List Action → Bool
  | _, [] => true
  | allowed, Action.resync :: rest => allowed && resyncAlternates false rest
  | _, Action.eventOk :: rest => resyncAlternates true rest

/-- The single result `Process` sends on the result channel. -/
structure ProcessResult where
  isCanceled : Bool
  errors : List RelayError
deriving DecidableEq

/-- `Process`: wrap the loop's exit error into the errors list unless it is
`replication.ErrSyncClosed`; `IsCanceled` is set only when no error is
delivered and the parent context is already done. -/
def Process (processErr : Option RelayError) (ctxDone : Bool) : ProcessResult :=
  match processErr with
  | some e =>
    if e = RelayError.syncClosed then { isCanceled := ctxDone, errors := [] }
    else { isCanceled := false, errors := [e] }
  | none => { isCanceled := ctxDone, errors := [] }

/-- The lifecycle state `Close` manipulates: the closed flag, the open handles,
the meta record, and how many times a meta flush was attempted. -/
structure RelayLifecycle where
  closed : Bool
  syncerOpen : Bool
  fdOpen : Bool
  dbOpen : Bool
  meta : Meta
  flushAttempts : Nat
deriving DecidableEq

/-- `Close`: under the write lock, return immediately when already closed;
otherwise close the syncer, the file and the DB handle, attempt one meta flush
(a failure is only logged), and set the closed flag regardless. -/
def Close (st : RelayLifecycle) (flushOk : Bool) : RelayLifecycle :=
  if st.closed then st
  else
    { closed := true
      syncerOpen := false
      fdOpen := false
      dbOpen := false
      meta := if flushOk then st.meta.flush else st.meta
      flushAttempts := st.flushAttempts + 1 }

/-- Taking the header size from a list that starts with the magic returns the
magic. -/
theorem take_header_append (x : List Nat) :
    (BinLogFileHeader ++ x).take binlogHeaderSize = BinLogFileHeader := rfl

/-- If the zero-padded 4-byte read buffer equals the magic, the file really
starts with the magic (the magic has no zero byte, so padding cannot fake it). -/
theorem pad_eq_header (c : List Nat)
    (h : c.take binlogHeaderSize ++ List.replicate (binlogHeaderSize - c.length) 0 =
      BinLogFileHeader) :
    c.take binlogHeaderSize = BinLogFileHeader := by
  match c with
  | [] => exact absurd h (by decide)
  | [a] =>
    exact absurd (show (0 : Nat) = 0x62 from congrArg (fun l => l.getD 1 0) h) (by decide)
  | [a, b] =>
    exact absurd (show (0 : Nat) = 0x69 from congrArg (fun l => l.getD 2 0) h) (by decide)
  | [a, b, c'] =>
    exact absurd (show (0 : Nat) = 0x6e from congrArg (fun l => l.getD 3 0) h) (by decide)
  | a :: b :: c' :: d :: rest =>
    have hz : binlogHeaderSize - (a :: b :: c' :: d :: rest).length = 0 := by
      simp only [binlogHeaderSize, List.length_cons]
      omega
    rw [hz, List.replicate_zero, List.append_nil] at h
    exact h

/-- `writeBinlogHeaderIfNotExists` always leaves the first 4 bytes equal to the
magic. -/
theorem writeBinlogHeader_take4 (content : List Nat) :
    (writeBinlogHeaderIfNotExists content).take binlogHeaderSize = BinLogFileHeader := by
  rcases h : readFirst4 content with _ | b
  · simp only [writeBinlogHeaderIfNotExists, h]
    exact take_header_append _
  · simp only [writeBinlogHeaderIfNotExists, h]
    by_cases hb : b = BinLogFileHeader
    · rw [if_pos hb]
      have hpad : content.take binlogHeaderSize ++
          List.replicate (binlogHeaderSize - content.length) 0 = BinLogFileHeader := by
        rw [readFirst4] at h
        split at h
        · exact absurd h (by simp)
        · exact (Option.some.inj h).trans hb
      exact pad_eq_header content hpad
    · rw [if_neg hb]
      exact take_header_append _

/-- A file starting with the magic has length at least the header size. -/
theorem header_take4_length {content : List Nat}
    (h : content.take binlogHeaderSize = BinLogFileHeader) :
    binlogHeaderSize ≤ content.length := by
  have hl := congrArg List.length h
  simp only [List.length_take, binlogHeaderSize, BinLogFileHeader, List.length_cons,
    List.length_nil] at hl ⊢
  omega

/-- Appending bytes to a file that starts with the magic keeps the magic. -/
theorem take4_append_of_header {content : List Nat} (extra : List Nat)
    (h : content.take binlogHeaderSize = BinLogFileHeader) :
    (content ++ extra).take binlogHeaderSize = BinLogFileHeader := by
  rw [List.take_append_of_le_length (header_take4_length h), h]

/-- The content `handleFormatDescriptionEvent` installs starts with the magic. -/
theorem openedContent_take4 (st : RelayState) (filename : String) :
    (openedContent st filename).take binlogHeaderSize = BinLogFileHeader :=
  writeBinlogHeader_take4 _

/-- Looking up a freshly inserted file returns its content. -/
theorem fsLookup_fsInsert (fs : List (String × List Nat)) (name : String) (content : List Nat) :
    fsLookup (fsInsert fs name content) name = some content := by
  induction fs with
  | nil => simp [fsInsert, fsLookup]
  | cons p rest ih =>
    by_cases hp : p.1 = name
    · simp [fsInsert, fsLookup, hp]
    · simp [fsInsert, fsLookup, hp, ih]

/-- Facts about the state `handleFormatDescriptionEvent` returns on success: the
named file holds the opened content, it is the open fd, and meta and counters
are untouched. -/
theorem handleFDE_ok_facts {st : RelayState} {filename : String} {ex : Bool} {st2 : RelayState}
    (h : handleFormatDescriptionEvent st filename = Except.ok (ex, st2)) :
    fsLookup st2.fs filename = some (openedContent st filename) ∧
    st2.fd = some filename ∧ st2.meta = st.meta ∧ st2.counters = st.counters := by
  rw [handleFormatDescriptionEvent] at h
  split at h
  · exact absurd h (by simp)
  · split at h
    · exact absurd h (by simp)
    · cases h
      exact ⟨fsLookup_fsInsert _ _ _, rfl, rfl, rfl⟩

/-- `handleFormatDescriptionEvent` computed from the probe's parse result. -/
theorem handleFDE_of_parse {st : RelayState} {filename : String} {eof : Bool}
    (hname : filename.length ≠ 0)
    (hp : parseSingleEvent ((openedContent st filename).drop binlogHeaderSize) =
      Except.ok eof) :
    handleFormatDescriptionEvent st filename = Except.ok (!eof,
      { st with fs := fsInsert st.fs filename (openedContent st filename),
                fd := some filename }) := by
  rw [handleFormatDescriptionEvent, if_neg hname, checkFormatDescriptionEventExists, hp]

/-- The append-and-save tail never produces a skipped (no-append no-save)
continuation. -/
theorem appendAndSave_ne_skip (cfg : Config) (vars : LoopVars) (st : RelayState)
    (e : BinlogEvent) (vars2 : LoopVars) (st2 : RelayState) :
    appendAndSave cfg vars st e ≠ IterOut.cont vars2 st2 false false := by
  rcases h : st.fd with _ | name <;> simp [appendAndSave, h]

/-- `retrySyncGTIDs` is a no-op under MariaDB flavor. -/
theorem retrySyncGTIDs_mariadb (cfg : Config) (env : Upstream)
    (hf : cfg.flavor = Flavor.mariadb) (meta : Meta) :
    retrySyncGTIDs cfg env meta = Except.ok meta := by
  simp [retrySyncGTIDs, hf]

/-- Zeroed counters, used by the concrete scenarios. -/
def counters0 : Counters :=
  { binlogReadError := 0, relayLogDataCorruption := 0, relayLogWriteError := 0,
    relayExitWithError := 0 }

/-- A meta record pointing at `mysql-bin.000001:4` inside one sub-directory. -/
def meta0 : Meta :=
  { uuid := "c65cc1a9", uuids := ["c65cc1a9"],
    pos := { name := "mysql-bin.000001", pos := 4 }, gset := none, dirty := false }

/-- Loop cursors matching `meta0`. -/
def vars0 : LoopVars :=
  { lastPos := { name := "mysql-bin.000001", pos := 4 }, lastGTID := none }

/-- A complete 19-byte binlog event whose size field (offsets 9..12) is 19. -/
def ev19 : List Nat := [0, 0, 0, 0, 15, 0, 0, 0, 0, 19, 0, 0, 0, 0, 0, 0, 0, 0, 0]

/-- State with `mysql-bin.000001` holding just the magic header, open as fd. -/
def st0 : RelayState :=
  { fs := [("mysql-bin.000001", BinLogFileHeader)], fd := some "mysql-bin.000001",
    meta := meta0, counters := counters0 }

/-- State whose current file already holds a FormatDescription event. -/
def stC6 : RelayState :=
  { fs := [("mysql-bin.000001", BinLogFileHeader ++ ev19)], fd := some "mysql-bin.000001",
    meta := meta0, counters := counters0 }

/-- State with an empty file system and no open fd. -/
def stEmpty : RelayState := { fs := [], fd := none, meta := meta0, counters := counters0 }

/-- Position-mode configuration. -/
def cfg0 : Config := { enableGTID := false, autoFixGTID := false, flavor := Flavor.mysql }

/-- GTID + auto-fix configuration, MySQL flavor. -/
def cfg4 : Config := { enableGTID := true, autoFixGTID := true, flavor := Flavor.mysql }

/-- GTID + auto-fix configuration, MariaDB flavor. -/
def cfg9 : Config := { enableGTID := true, autoFixGTID := true, flavor := Flavor.mariadb }

/-- An upstream whose queries all succeed. -/
def env0 : Upstream :=
  { getServerUUID := Except.ok "server-uuid-new", getMariaDBGtidDomainID := Except.ok 1,
    getServerID := Except.ok 123,
    getMasterStatus := Except.ok ({ name := "mysql-bin.000001", pos := 4 }, "gtid-new"),
    replaceGTID := fun old _ _ => old }

/-- An upstream whose server-UUID query fails. -/
def envBad : Upstream :=
  { getServerUUID := Except.error (), getMariaDBGtidDomainID := Except.ok 1,
    getServerID := Except.ok 123,
    getMasterStatus := Except.ok ({ name := "mysql-bin.000001", pos := 4 }, "gtid-new"),
    replaceGTID := fun old _ _ => old }

/-- A FormatDescriptionEvent as received by the loop. -/
def fdEvt : BinlogEvent :=
  { header := { timestamp := 1, logPos := 123, eventSize := 23 },
    event := EventBody.formatDescription, rawData := [1, 2, 3] }

/-- A rotate with timestamp 0 but nonzero log_pos (only one field zero). -/
def rotEvt : BinlogEvent :=
  { header := { timestamp := 0, logPos := 100, eventSize := 31 },
    event := EventBody.rotate "mysql-bin.000002" 4, rawData := [9, 9] }

/-- A real rotate: both header fields nonzero. -/
def rotEvtReal : BinlogEvent :=
  { header := { timestamp := 1600000000, logPos := 154, eventSize := 31 },
    event := EventBody.rotate "mysql-bin.000002" 4, rawData := [9, 9] }

/-- An opaque event processed through the append path. -/
def otherEvt : BinlogEvent :=
  { header := { timestamp := 10, logPos := 200, eventSize := 23 },
    event := EventBody.other, rawData := [7, 7] }

/-- The state after `otherEvt` is appended to `st0` in GTID mode. -/
def stAfter : RelayState :=
  { fs := [("mysql-bin.000001", BinLogFileHeader ++ [7, 7])], fd := some "mysql-bin.000001",
    meta := meta0.save vars0.lastPos none, counters := counters0 }

/-- The meta record after the MySQL-flavor resync of `meta0` against `env0`. -/
def metaR : Meta := meta0.addDir "server-uuid-new" none (some "")

/-- A meta record whose recorded offset is 200 in `mysql-bin.000002`. -/
def metaW : Meta :=
  { uuid := "c65cc1a9", uuids := ["c65cc1a9"],
    pos := { name := "mysql-bin.000002", pos := 200 }, gset := none, dirty := false }

/-- An open, not-yet-closed lifecycle state. -/
def life0 : RelayLifecycle :=
  { closed := false, syncerOpen := true, fdOpen := true, dbOpen := true, meta := meta0,
    flushAttempts := 0 }

/-- C1: every binlog file the relay produces starts with the magic FE 62 69 6E:
`writeBinlogHeaderIfNotExists` always leaves the file starting with the magic
(writing it when the first 4 bytes are absent or differ), and after any
FormatDescriptionEvent iteration that lets the loop continue — whether the
event was appended or skipped — the file named by `lastPos.name` starts with
the magic. -/
theorem relayC1 :
    (∀ content : List Nat,
      (writeBinlogHeaderIfNotExists content).take binlogHeaderSize = BinLogFileHeader) ∧
    (∀ (cfg : Config) (vars vars2 : LoopVars) (st st2 : RelayState) (e : BinlogEvent)
      (a m : Bool),
      e.event = EventBody.formatDescription →
      processEvent cfg vars st e = IterOut.cont vars2 st2 a m →
      ∃ content, fsLookup st2.fs vars.lastPos.name = some content ∧
        content.take binlogHeaderSize = BinLogFileHeader) := by
  constructor
  · exact writeBinlogHeader_take4
  · intro cfg vars vars2 st st2 e a m he hp
    rcases e with ⟨hd, ev, raw⟩
    cases he
    simp only [processEvent] at hp
    rcases hfde : handleFormatDescriptionEvent st vars.lastPos.name with pair | pair
    · rw [hfde] at hp
      exact absurd hp (by simp)
    · rw [hfde] at hp
      rcases pair with ⟨ex, st3⟩
      obtain ⟨hfs, hfd, _, _⟩ := handleFDE_ok_facts hfde
      by_cases hex : ex = true
      · rw [hex] at hp
        replace hp : IterOut.cont vars st3 false false = IterOut.cont vars2 st2 a m := hp
        cases hp
        exact ⟨openedContent st vars.lastPos.name, hfs, openedContent_take4 st _⟩
      · have hex2 : ex = false := by
          cases ex
          · rfl
          · exact absurd rfl hex
        rw [hex2] at hp
        replace hp : appendAndSave cfg vars st3
            { header := hd, event := EventBody.formatDescription, rawData := raw } =
            IterOut.cont vars2 st2 a m := hp
        simp only [appendAndSave, hfd, hfs] at hp
        cases hp
        refine ⟨openedContent st vars.lastPos.name ++ raw, ?_, ?_⟩
        · exact fsLookup_fsInsert _ _ _
        · exact take4_append_of_header raw (openedContent_take4 st _)

/-- C1 witness: a concrete FormatDescriptionEvent iteration keeps the file
starting with the magic. -/
theorem relayC1_witness :
    fdEvt.event = EventBody.formatDescription ∧
    processEvent cfg0 vars0 stC6 fdEvt = IterOut.cont vars0 stC6 false false ∧
    (∃ content, fsLookup stC6.fs vars0.lastPos.name = some content ∧
      content.take binlogHeaderSize = BinLogFileHeader) :=
  ⟨rfl, by decide, relayC1.2 cfg0 vars0 vars0 stC6 stC6 fdEvt false false rfl (by decide)⟩

/-- C2: with a non-empty recorded position, `startSyncByPos` (a) resumes from
the file size and leaves meta's offset at the file size whenever the local file
exists with size at least the recorded offset, (b) resumes from offset 4 when
the file is absent, and (c) fails with `ErrBinlogPosGreaterThanFileSize`
carrying the name, size and position when the file is smaller than the
recorded offset. -/
theorem relayC2 (meta : Meta) (hname : meta.pos.name ≠ "") :
    (∀ size : Nat, meta.pos.pos ≤ size →
      ∃ m2 : Meta, startSyncByPos meta (some size) =
          Except.ok ({ name := meta.pos.name, pos := size }, m2) ∧
        m2.pos = { name := meta.pos.name, pos := size }) ∧
    (startSyncByPos meta none = Except.ok ({ name := meta.pos.name, pos := 4 }, meta)) ∧
    (∀ size : Nat, size < meta.pos.pos →
      startSyncByPos meta (some size) =
        Except.error (RelayError.binlogPosGreaterThanFileSize meta.pos.name size
          meta.pos.pos)) := by
  refine ⟨?_, ?_, ?_⟩
  · intro size hsize
    by_cases hlt : meta.pos.pos < size
    · refine ⟨meta.save { meta.pos with pos := size } none, ?_, rfl⟩
      rw [startSyncByPos, if_neg hname]
      simp [hlt]
    · have heq : size = meta.pos.pos := by omega
      subst heq
      refine ⟨meta, ?_, rfl⟩
      rw [startSyncByPos, if_neg hname]
      simp
  · rw [startSyncByPos, if_neg hname]
  · intro size hsz
    rw [startSyncByPos, if_neg hname]
    have hnlt : ¬meta.pos.pos < size := by omega
    simp [hnlt, hsz]

/-- C2 witness: the three cases at a concrete meta record `{000002, 200}` with
file sizes 300 (resume from 300), absent (resume from 4) and 100 (error). -/
theorem relayC2_witness :
    (∃ m2 : Meta, startSyncByPos metaW (some 300) =
        Except.ok ({ name := metaW.pos.name, pos := 300 }, m2) ∧
      m2.pos = { name := metaW.pos.name, pos := 300 }) ∧
    startSyncByPos metaW none = Except.ok ({ name := metaW.pos.name, pos := 4 }, metaW) ∧
    startSyncByPos metaW (some 100) =
      Except.error (RelayError.binlogPosGreaterThanFileSize metaW.pos.name 100 metaW.pos.pos) :=
  ⟨(relayC2 metaW (by decide)).1 300 (by decide), (relayC2 metaW (by decide)).2.1,
   (relayC2 metaW (by decide)).2.2 100 (by decide)⟩

/-- C5 counterexample: with GTID enabled but the server-UUID query failing,
`SwitchMaster` still returns an error, so "returns an error if and only if
enable_gtid is false" is refuted at this input. -/
theorem relayC5_counterexample :
    cfg4.enableGTID = true ∧
    SwitchMaster cfg4 envBad meta0 = Except.error RelayError.getUUIDFailed :=
  ⟨rfl, rfl⟩

/-- C5 (amended): `SwitchMaster` always errors when GTID is disabled, and with
GTID enabled returns the result of `reSetupMeta` — so it can also fail when
fetching the server UUID fails; on success `reSetupMeta` appends the fetched
UUID (synthesized as domain-separator-server for MariaDB) as the new current
sub-directory via `AddDir(uuid, nil, nil)` and reloads meta. -/
theorem relayC5_amended (cfg : Config) (env : Upstream) (meta : Meta) :
    (cfg.enableGTID = false →
      SwitchMaster cfg env meta = Except.error RelayError.switchMasterNotGTID) ∧
    (cfg.enableGTID = true → SwitchMaster cfg env meta = reSetupMeta cfg env meta) ∧
    (∀ uuid : String, getServerUUID cfg env = Except.ok uuid →
      reSetupMeta cfg env meta = Except.ok ((meta.addDir uuid none none).load) ∧
      (meta.addDir uuid none none).uuids = meta.uuids ++ [uuid] ∧
      (meta.addDir uuid none none).uuid = uuid) ∧
    (cfg.flavor = Flavor.mariadb → ∀ d s : Nat,
      env.getMariaDBGtidDomainID = Except.ok d → env.getServerID = Except.ok s →
      getServerUUID cfg env =
        Except.ok (toString d ++ domainServerIDSeparator ++ toString s)) := by
  refine ⟨?_, ?_, ?_, ?_⟩
  · intro h
    simp [SwitchMaster, h]
  · intro h
    simp [SwitchMaster, h]
  · intro uuid h
    refine ⟨?_, rfl, rfl⟩
    rw [reSetupMeta, h]
  · intro hf d s hd hs
    rw [getServerUUID, if_pos hf, hd, hs]

/-- C5 witness: the amended behavior at concrete configurations — gating error
without GTID, delegation to `reSetupMeta` with GTID, AddDir appending the
fetched UUID, and the MariaDB UUID synthesis. -/
theorem relayC5_witness :
    SwitchMaster cfg0 env0 meta0 = Except.error RelayError.switchMasterNotGTID ∧
    SwitchMaster cfg4 env0 meta0 = reSetupMeta cfg4 env0 meta0 ∧
    (reSetupMeta cfg4 env0 meta0 =
        Except.ok ((meta0.addDir "server-uuid-new" none none).load) ∧
      (meta0.addDir "server-uuid-new" none none).uuids = meta0.uuids ++ ["server-uuid-new"] ∧
      (meta0.addDir "server-uuid-new" none none).uuid = "server-uuid-new") ∧
    getServerUUID cfg9 env0 =
      Except.ok (toString (1 : Nat) ++ domainServerIDSeparator ++ toString (123 : Nat)) :=
  ⟨(relayC5_amended cfg0 env0 meta0).1 rfl, (relayC5_amended cfg4 env0 meta0).2.1 rfl,
   (relayC5_amended cfg4 env0 meta0).2.2.1 "server-uuid-new" rfl,
   (relayC5_amended cfg9 env0 meta0).2.2.2 rfl 1 123 rfl rfl⟩

/-- C7 counterexample: the loop exits with `ErrSyncClosed` but `Process`
delivers an empty errors list, refuting "every fatal error on which the loop
exits — including ErrSyncClosed — is delivered". -/
theorem relayC7_counterexample :
    (runLoop cfg0 env0 vars0 st0 true [GetEventResult.syncClosed]).2 =
      LoopOut.exited st0 (some RelayError.syncClosed) ∧
    (Process (some RelayError.syncClosed) false).errors = [] :=
  ⟨rfl, rfl⟩

/-- C7 (amended): every error the event loop exits with is delivered as the
single element of the `ProcessResult` errors list except `ErrSyncClosed`,
which is swallowed (the errors list stays empty); `IsCanceled` is true exactly
when no error was delivered and the parent context was already done. -/
theorem relayC7_amended (cfg : Config) (env : Upstream) (vars : LoopVars) (st st2 : RelayState)
    (flag : Bool) (inputs : List GetEventResult) (e : RelayError) (ctxDone : Bool)
    (hrun : (runLoop cfg env vars st flag inputs).2 = LoopOut.exited st2 (some e)) :
    ((Process (some e) ctxDone).errors =
      if e = RelayError.syncClosed then [] else [e]) ∧
    ((Process (some e) ctxDone).isCanceled = true ↔
      ((Process (some e) ctxDone).errors = [] ∧ ctxDone = true)) := by
  by_cases hse : e = RelayError.syncClosed
  · subst hse
    simp [Process]
  · simp [Process, hse]

/-- C7 witness: `ErrNeedSyncAgain` exits the loop and is delivered as the single
error of the result. -/
theorem relayC7_witness :
    ((Process (some RelayError.needSyncAgain) false).errors =
      if RelayError.needSyncAgain = RelayError.syncClosed then []
      else [RelayError.needSyncAgain]) ∧
    ((Process (some RelayError.needSyncAgain) false).isCanceled = true ↔
      ((Process (some RelayError.needSyncAgain) false).errors = [] ∧ false = true)) :=
  relayC7_amended cfg0 env0 vars0 st0 st0 true [GetEventResult.needSyncAgain]
    RelayError.needSyncAgain false rfl

/-- C8 counterexample: at the empty filename, starting from zeroed counters, the
data-corruption counter stays 0 — the claim that relay_log_data_corruption is
incremented is refuted. -/
theorem relayC8_counterexample :
    handleFormatDescriptionEvent st0 "" =
      Except.error (RelayError.notValid,
        { st0 with fd := none, counters := st0.counters.incReadError }) ∧
    st0.counters.relayLogDataCorruption = 0 ∧
    (match handleFormatDescriptionEvent st0 "" with
     | Except.error pair => pair.2.counters.relayLogDataCorruption
     | Except.ok pair => pair.2.counters.relayLogDataCorruption) = 0 :=
  ⟨rfl, rfl, rfl⟩

/-- C8 (amended): `handleFormatDescriptionEvent` with an empty filename fails
with the NotValid error without touching the file system, and the event is
counted on the binlog-read-error counter — the data-corruption counter is left
unchanged. -/
theorem relayC8_amended (st : RelayState) :
    handleFormatDescriptionEvent st "" =
      Except.error (RelayError.notValid,
        { st with fd := none, counters := st.counters.incReadError }) ∧
    st.counters.incReadError.relayLogDataCorruption = st.counters.relayLogDataCorruption ∧
    st.counters.incReadError.binlogReadError = st.counters.binlogReadError + 1 :=
  ⟨rfl, rfl, rfl⟩

/-- C10: `Close` reaches the terminal closed state regardless of the meta-flush
outcome; a second `Close` (with any flush outcome) returns the same state
immediately and does not retry the flush — the attempt count stays at one more
than before the first `Close`. -/
theorem relayC10 (st : RelayLifecycle) (fOk fOk2 : Bool) (h : st.closed = false) :
    (Close st fOk).closed = true ∧
    Close (Close st fOk) fOk2 = Close st fOk ∧
    (Close (Close st fOk) fOk2).flushAttempts = st.flushAttempts + 1 := by
  simp [Close, h]

/-- C10 witness: a concrete open state whose first flush fails still closes, and
a second Close with a succeeding flush changes nothing. -/
theorem relayC10_witness :
    (Close life0 false).closed = true ∧
    Close (Close life0 false) true = Close life0 false ∧
    (Close (Close life0 false) true).flushAttempts = life0.flushAttempts + 1 :=
  relayC10 life0 false true rfl

/-- C3 counterexample: a RotateEvent with timestamp 0 but log_pos 100 — only one
of the two fields zero — is still skipped (name adopted, nothing appended, no
meta save), refuting "fake exactly when both fields are zero". -/
theorem relayC3_counterexample :
    processEvent cfg0 vars0 st0 rotEvt =
      IterOut.cont { lastPos := { name := "mysql-bin.000002", pos := 4 }, lastGTID := none }
        st0 false false ∧
    ¬(rotEvt.header.timestamp = 0 ∧ rotEvt.header.logPos = 0) := by
  refine ⟨by rfl, by decide⟩

/-- C3 (amended): a RotateEvent is treated as fake — its name adopted into
`lastPos` via the compare rule, its bytes not appended and meta not saved —
exactly when its header timestamp is 0 OR its header log_pos is 0; only when
both fields are nonzero does it go through the append-and-save tail. -/
theorem relayC3_amended (cfg : Config) (vars : LoopVars) (st : RelayState)
    (nextLogName : String) (position ts lp sz : Nat) (raw : List Nat) :
    (processEvent cfg vars st
        { header := { timestamp := ts, logPos := lp, eventSize := sz },
          event := EventBody.rotate nextLogName position, rawData := raw } =
      IterOut.cont (rotateAdopt vars { name := nextLogName, pos := position }) st false false
      ↔ (ts = 0 ∨ lp = 0)) ∧
    (¬(ts = 0 ∨ lp = 0) →
      processEvent cfg vars st
          { header := { timestamp := ts, logPos := lp, eventSize := sz },
            event := EventBody.rotate nextLogName position, rawData := raw } =
        appendAndSave cfg (rotateAdopt vars { name := nextLogName, pos := position }) st
          { header := { timestamp := ts, logPos := lp, eventSize := sz },
            event := EventBody.rotate nextLogName position, rawData := raw }) := by
  constructor
  · constructor
    · intro h
      by_cases h0 : ts = 0 ∨ lp = 0
      · exact h0
      · exfalso
        simp only [processEvent] at h
        rw [if_neg h0] at h
        exact appendAndSave_ne_skip _ _ _ _ _ _ h
    · intro h0
      simp only [processEvent]
      rw [if_pos h0]
  · intro h0
    simp only [processEvent]
    rw [if_neg h0]

/-- C3 witness: the amended rule at concrete rotates — `rotEvt` (timestamp 0,
log_pos 100) is skipped; `rotEvtReal` (both nonzero) takes the append path. -/
theorem relayC3_witness :
    (processEvent cfg0 vars0 st0 rotEvt =
      IterOut.cont (rotateAdopt vars0 { name := "mysql-bin.000002", pos := 4 }) st0
        false false) ∧
    (processEvent cfg0 vars0 st0 rotEvtReal =
      appendAndSave cfg0 (rotateAdopt vars0 { name := "mysql-bin.000002", pos := 4 }) st0
        rotEvtReal) :=
  ⟨(relayC3_amended cfg0 vars0 st0 "mysql-bin.000002" 4 0 100 31 [9, 9]).1.mpr (Or.inl rfl),
   (relayC3_amended cfg0 vars0 st0 "mysql-bin.000002" 4 1600000000 154 31 [9, 9]).2
     (by decide)⟩

/-- C6: on a FormatDescriptionEvent, when the probe parses one event without EOF
the file already holds its FormatDescription and the iteration is skipped
entirely — nothing appended, meta untouched; when the probe hits EOF the event
is appended normally (append and meta save both happen). -/
theorem relayC6 (cfg : Config) (vars : LoopVars) (st : RelayState)
    (hd : EventHeader) (raw : List Nat) (hname : vars.lastPos.name.length ≠ 0) :
    (parseSingleEvent ((openedContent st vars.lastPos.name).drop binlogHeaderSize) =
        Except.ok false →
      ∃ st2, processEvent cfg vars st
          { header := hd, event := EventBody.formatDescription, rawData := raw } =
            IterOut.cont vars st2 false false ∧ st2.meta = st.meta) ∧
    (parseSingleEvent ((openedContent st vars.lastPos.name).drop binlogHeaderSize) =
        Except.ok true →
      ∃ vars2 st2, processEvent cfg vars st
          { header := hd, event := EventBody.formatDescription, rawData := raw } =
            IterOut.cont vars2 st2 true true ∧
        fsLookup st2.fs vars.lastPos.name =
          some (openedContent st vars.lastPos.name ++ raw)) := by
  constructor
  · intro hp
    refine ⟨{ st with
        fs := fsInsert st.fs vars.lastPos.name (openedContent st vars.lastPos.name),
        fd := some vars.lastPos.name }, ?_, rfl⟩
    simp only [processEvent, handleFDE_of_parse hname hp, Bool.not_false]
    exact if_pos trivial
  · intro hp
    have hfde := handleFDE_of_parse hname hp
    refine ⟨posUpdate cfg vars
        { header := hd, event := EventBody.formatDescription, rawData := raw },
      ?_, ?_, ?_⟩
    · exact { st with
        fs := fsInsert
          (fsInsert st.fs vars.lastPos.name (openedContent st vars.lastPos.name))
          vars.lastPos.name (openedContent st vars.lastPos.name ++ raw)
        fd := some vars.lastPos.name
        meta := st.meta.save
          (posUpdate cfg vars
            { header := hd, event := EventBody.formatDescription, rawData := raw }).lastPos
          (posUpdate cfg vars
            { header := hd, event := EventBody.formatDescription, rawData := raw }).lastGTID }
    · simp only [processEvent, hfde, Bool.not_true]
      simp only [appendAndSave, fsLookup_fsInsert]
      exact if_neg (by decide)
    · exact fsLookup_fsInsert _ _ _

/-- C6 witness: with the file already containing a FormatDescription event the
iteration skips; with an absent file the event is appended. -/
theorem relayC6_witness :
    (∃ st2, processEvent cfg0 vars0 stC6 fdEvt = IterOut.cont vars0 st2 false false ∧
      st2.meta = stC6.meta) ∧
    (∃ vars2 st2, processEvent cfg0 vars0 stEmpty fdEvt = IterOut.cont vars2 st2 true true ∧
      fsLookup st2.fs vars0.lastPos.name =
        some (openedContent stEmpty vars0.lastPos.name ++ fdEvt.rawData)) :=
  ⟨(relayC6 cfg0 vars0 stC6 fdEvt.header fdEvt.rawData (by decide)).1 rfl,
   (relayC6 cfg0 vars0 stEmpty fdEvt.header fdEvt.rawData (by decide)).2 rfl⟩

/-- The one-shot discipline holds for every run: scanning the action trace, a
resync only ever happens while the flag argument allows it, and only a
successful event re-allows it. -/
theorem runLoop_alternates (cfg : Config) (env : Upstream) :
    ∀ (inputs : List GetEventResult) (vars : LoopVars) (st : RelayState) (flag : Bool),
      resyncAlternates flag (runLoop cfg env vars st flag inputs).1 = true := by
  intro inputs
  induction inputs with
  | nil => intro vars st flag; rfl
  | cons input rest ih =>
    intro vars st flag
    cases input with
    | canceled => rfl
    | deadlineExceeded => exact ih vars st flag
    | checksumMismatch => rfl
    | syncClosed => rfl
    | needSyncAgain => rfl
    | otherError => rfl
    | purged reopenOk =>
      simp only [runLoop]
      by_cases hg : (flag && cfg.enableGTID && cfg.autoFixGTID) = true
      · rw [if_pos hg]
        rcases hrg : retrySyncGTIDs cfg env st.meta with e2 | meta2
        · rfl
        · cases reopenOk
          · rfl
          · simp only [if_pos rfl, resyncAlternates]
            have hflag : flag = true := by
              rcases Bool.and_eq_true_iff.mp hg with ⟨h1, _⟩
              exact (Bool.and_eq_true_iff.mp h1).1
            rw [hflag, ih vars { st with meta := meta2 } false]
            rfl
      · rw [if_neg hg]
        rfl
    | ok e =>
      simp only [runLoop]
      rcases hpe : processEvent cfg vars st e with ⟨vars2, st2, a, m⟩ | ⟨st2, err⟩
      · simp only [resyncAlternates]
        exact ih vars2 st2 true
      · rfl

/-- C4: with GTID mode and auto-fix enabled, resync is one-shot until an event
is successfully received: (1) every trace satisfies the alternation discipline
(never two resyncs without an intervening successful event); (2) a purged-logs
error with the flag cleared exits the loop with that error; (3) a successful
`GetEvent` continues the loop with the flag set back to allowed; (4) a
successful resync continues the loop with the flag cleared. -/
theorem relayC4 (cfg : Config) (env : Upstream)
    (hg : cfg.enableGTID = true) (ha : cfg.autoFixGTID = true) :
    (∀ (inputs : List GetEventResult) (vars : LoopVars) (st : RelayState),
      resyncAlternates true (runLoop cfg env vars st true inputs).1 = true) ∧
    (∀ (vars : LoopVars) (st : RelayState) (reopenOk : Bool)
      (rest : List GetEventResult),
      runLoop cfg env vars st false (GetEventResult.purged reopenOk :: rest) =
        ([], LoopOut.exited { st with counters := st.counters.incReadError }
          (some RelayError.purged))) ∧
    (∀ (vars vars2 : LoopVars) (st st2 : RelayState) (e : BinlogEvent) (a m : Bool)
      (rest : List GetEventResult) (flag : Bool),
      processEvent cfg vars st e = IterOut.cont vars2 st2 a m →
      runLoop cfg env vars st flag (GetEventResult.ok e :: rest) =
        (Action.eventOk :: (runLoop cfg env vars2 st2 true rest).1,
         (runLoop cfg env vars2 st2 true rest).2)) ∧
    (∀ (vars : LoopVars) (st : RelayState) (meta2 : Meta) (rest : List GetEventResult),
      retrySyncGTIDs cfg env st.meta = Except.ok meta2 →
      runLoop cfg env vars st true (GetEventResult.purged true :: rest) =
        (Action.resync :: (runLoop cfg env vars { st with meta := meta2 } false rest).1,
         (runLoop cfg env vars { st with meta := meta2 } false rest).2)) := by
  refine ⟨?_, ?_, ?_, ?_⟩
  · intro inputs vars st
    exact runLoop_alternates cfg env inputs vars st true
  · intro vars st reopenOk rest
    simp [runLoop]
  · intro vars vars2 st st2 e a m rest flag hpe
    simp only [runLoop, hpe]
  · intro vars st meta2 rest hrg
    simp only [runLoop, hg, ha, hrg, Bool.and_self, Bool.and_true, if_pos]

/-- C4 witness: the four conjuncts at a concrete MySQL-flavor GTID+auto-fix run:
alternation on a purged/ok/purged trace, exit on purged with the flag cleared,
flag restored after a successful event, and flag cleared after a resync. -/
theorem relayC4_witness :
    resyncAlternates true (runLoop cfg4 env0 vars0 st0 true
      [GetEventResult.purged true, GetEventResult.ok otherEvt,
        GetEventResult.purged true]).1 = true ∧
    runLoop cfg4 env0 vars0 st0 false [GetEventResult.purged true] =
      ([], LoopOut.exited { st0 with counters := st0.counters.incReadError }
        (some RelayError.purged)) ∧
    runLoop cfg4 env0 vars0 st0 true [GetEventResult.ok otherEvt] =
      (Action.eventOk :: (runLoop cfg4 env0 vars0 stAfter true []).1,
       (runLoop cfg4 env0 vars0 stAfter true []).2) ∧
    runLoop cfg4 env0 vars0 st0 true [GetEventResult.purged true] =
      (Action.resync :: (runLoop cfg4 env0 vars0 { st0 with meta := metaR } false []).1,
       (runLoop cfg4 env0 vars0 { st0 with meta := metaR } false []).2) :=
  ⟨(relayC4 cfg4 env0 rfl rfl).1 _ vars0 st0,
   (relayC4 cfg4 env0 rfl rfl).2.1 vars0 st0 true [],
   (relayC4 cfg4 env0 rfl rfl).2.2.1 vars0 vars0 st0 stAfter otherEvt true true [] true
     (by decide),
   (relayC4 cfg4 env0 rfl rfl).2.2.2 vars0 st0 metaR [] rfl⟩

/-- C9 counterexample: under MariaDB flavor with GTID and auto-fix enabled, a
purged-logs error does NOT exit the run — the loop performs a resync action
(with meta unchanged) and continues, refuting "a purged-logs error makes the
run exit with that error". -/
theorem relayC9_counterexample :
    cfg9.flavor = Flavor.mariadb ∧
    runLoop cfg9 env0 vars0 st0 true [GetEventResult.purged true] =
      ([Action.resync], LoopOut.finished vars0 st0 false) :=
  ⟨rfl, rfl⟩

/-- C9 (amended): under MariaDB flavor `retrySyncGTIDs` is a no-op (no GTID
merge, no AddDir); a purged-logs error exits the run with that error exactly
when the one-shot flag is cleared or auto-fix is disabled, while with GTID and
auto-fix enabled and the flag set, the loop reopens the streamer with meta
unchanged — same sub-directory — and continues. -/
theorem relayC9_amended (cfg : Config) (env : Upstream)
    (hf : cfg.flavor = Flavor.mariadb) :
    (∀ meta : Meta, retrySyncGTIDs cfg env meta = Except.ok meta) ∧
    (∀ (vars : LoopVars) (st : RelayState) (reopenOk : Bool)
      (rest : List GetEventResult),
      runLoop cfg env vars st false (GetEventResult.purged reopenOk :: rest) =
        ([], LoopOut.exited { st with counters := st.counters.incReadError }
          (some RelayError.purged))) ∧
    (cfg.autoFixGTID = false →
      ∀ (vars : LoopVars) (st : RelayState) (flag reopenOk : Bool)
        (rest : List GetEventResult),
        runLoop cfg env vars st flag (GetEventResult.purged reopenOk :: rest) =
          ([], LoopOut.exited { st with counters := st.counters.incReadError }
            (some RelayError.purged))) ∧
    (cfg.enableGTID = true → cfg.autoFixGTID = true →
      ∀ (vars : LoopVars) (st : RelayState) (rest : List GetEventResult),
        runLoop cfg env vars st true (GetEventResult.purged true :: rest) =
          (Action.resync :: (runLoop cfg env vars st false rest).1,
           (runLoop cfg env vars st false rest).2)) := by
  refine ⟨retrySyncGTIDs_mariadb cfg env hf, ?_, ?_, ?_⟩
  · intro vars st reopenOk rest
    simp [runLoop]
  · intro hafix vars st flag reopenOk rest
    simp [runLoop, hafix]
  · intro hgtid hafix vars st rest
    simp only [runLoop, hgtid, hafix, retrySyncGTIDs_mariadb cfg env hf st.meta,
      Bool.and_self, Bool.and_true, if_pos]

/-- C9 witness: the amended behavior at the concrete MariaDB configuration —
no-op resync, exit when the flag is cleared, and continue-with-unchanged-meta
when the flag is set. -/
theorem relayC9_witness :
    retrySyncGTIDs cfg9 env0 meta0 = Except.ok meta0 ∧
    runLoop cfg9 env0 vars0 st0 false [GetEventResult.purged true] =
      ([], LoopOut.exited { st0 with counters := st0.counters.incReadError }
        (some RelayError.purged)) ∧
    runLoop cfg9 env0 vars0 st0 true [GetEventResult.purged true] =
      (Action.resync :: (runLoop cfg9 env0 vars0 st0 false []).1,
       (runLoop cfg9 env0 vars0 st0 false []).2) :=
  ⟨(relayC9_amended cfg9 env0 rfl).1 meta0,
   (relayC9_amended cfg9 env0 rfl).2.1 vars0 st0 true [],
   (relayC9_amended cfg9 env0 rfl).2.2.2 rfl rfl vars0 st0 []⟩

end DMRelay
